import Mathlib

/-!
Verification of the GroundStation QCar dashboard core: the vehicle state
reducer (telemetry merge, connect/disconnect reconciliation, e-stop tick)
and the reconnecting WebSocket bridge client, shallowly embedded from the
TypeScript source (`App.tsx`, `services/websocketBridgeService.ts`,
`services/mockVehicleService.ts`, `types.ts`, `constants.ts`).

JavaScript numbers are modelled as real numbers, `undefined`-able fields as
`Option`, and `Date.now()` timestamps as natural numbers passed explicitly.
-/

/-! ### JavaScript helper semantics -/

/-- JS nullish coalescing `a ?? b` on optional values. -/
def jsCoalesce {α : Type} (a b : Option α) : Option α :=
  match a with
  | some x => some x
  | none => b

/-- JS `Array.prototype.findIndex`, with the `-1` sentinel folded into `Option`. -/
def jsFindIndex {α : Type} (p : α → Bool) : List α → Option Nat
  | [] => none
  | a :: as => if p a then some 0 else (jsFindIndex p as).map (· + 1)

/-- JS `Array.prototype.map` when the callback also receives the element index. -/
def jsMapIdx {α β : Type} (f : Nat → α → β) : List α → List β
  | [] => []
  | a :: as => f 0 a :: jsMapIdx (fun i x => f (i + 1) x) as

/-- JS `String.prototype.replace` with a string pattern: replaces only the
first occurrence of `pat`. -/
def jsReplaceFirstList (pat repl : List Char) : List Char → List Char
  | [] => []
  | c :: rest =>
    if pat.isPrefixOf (c :: rest) then repl ++ (c :: rest).drop pat.length
    else c :: jsReplaceFirstList pat repl rest

/-- String version of `jsReplaceFirstList`. -/
def jsReplaceFirst (s pat repl : String) : String :=
  ⟨jsReplaceFirstList pat.data repl.data s.data⟩

/-! ### Data model (`types.ts`, the variant imported by `App.tsx`) -/

/-- `VehicleStatus` enum. -/
inductive VehicleStatus where
  | DISCONNECTED
  | INITIALIZING
  | IDLE
  | ACTIVE
  | EMERGENCY_STOP
  | STOPPED
  | MANUAL
deriving DecidableEq

/-- `ConnectionStatus` union type of the bridge service. -/
inductive ConnectionStatus where
  | disconnected
  | connecting
  | connected
  | error
deriving DecidableEq

/-- `TelemetryData` interface: required numeric pose/kinematics/health fields
plus the optional auxiliary fields. -/
@[ext]
structure TelemetryData where
  x : ℝ
  y : ℝ
  theta : ℝ
  velocity : ℝ
  battery : ℝ
  steering : ℝ
  throttle : ℝ
  lastUpdate : Nat
  gps_valid : Option Bool := none
  state : Option String := none
  v2v_active : Option Bool := none
  v2v_peers : Option ℝ := none
  v2v_protocol : Option String := none
  platoon_enabled : Option Bool := none
  platoon_is_leader : Option Bool := none
  platoon_position : Option ℝ := none
  platoon_leader_id : Option ℝ := none
  local_observer_type : Option String := none
  fleet_observer_type : Option String := none
  longitudinal_ctrl_type : Option String := none
  lateral_ctrl_type : Option String := none
  perception_active : Option Bool := none
  scopes_active : Option Bool := none

/-- `VehicleConfig` interface. -/
@[ext]
structure VehicleConfig where
  controllerId : String
  estimatorId : String
  pathId : String

/-- `Vehicle` interface. -/
@[ext]
structure Vehicle where
  id : String
  name : String
  status : VehicleStatus
  config : VehicleConfig
  telemetry : TelemetryData
  targetSpeed : ℝ

/-- Discriminant of a telemetry-carrying message: `'telemetry' | 'v2v_status'`. -/
inductive TelemetryKind where
  | telemetry
  | v2v_status
deriving DecidableEq

/-- `TelemetryMessage` interface: every data field is optional (may be absent
from the JSON), and the four kinematic fields have abbreviated aliases
(`th`, `v`, `u`, `delta`). -/
structure TelemetryMessage where
  type : TelemetryKind := .telemetry
  vehicle_id : String
  x : Option ℝ := none
  y : Option ℝ := none
  theta : Option ℝ := none
  velocity : Option ℝ := none
  battery : Option ℝ := none
  steering : Option ℝ := none
  throttle : Option ℝ := none
  state : Option String := none
  gps_valid : Option Bool := none
  th : Option ℝ := none
  v : Option ℝ := none
  u : Option ℝ := none
  delta : Option ℝ := none
  v2v_active : Option Bool := none
  v2v_peers : Option ℝ := none
  v2v_protocol : Option String := none
  v2v_local_rate : Option ℝ := none
  v2v_fleet_rate : Option ℝ := none
  platoon_enabled : Option Bool := none
  platoon_is_leader : Option Bool := none
  platoon_position : Option ℝ := none
  platoon_leader_id : Option ℝ := none
  platoon_setup_complete : Option Bool := none
  local_observer_type : Option String := none
  fleet_observer_type : Option String := none
  longitudinal_ctrl_type : Option String := none
  lateral_ctrl_type : Option String := none
  perception_active : Option Bool := none
  scopes_active : Option Bool := none

/-- `vehicle_status` message payload: `status` is `'connected' | 'disconnected'`. -/
inductive StatusWord where
  | connected
  | disconnected
deriving DecidableEq

/-- `VehicleStatusMessage` interface. -/
structure VehicleStatusMessage where
  vehicle_id : String
  status : StatusWord
  ip : Option String := none
  port : Option Nat := none

/-! ### Vehicle state reducer (`App.tsx` handlers) -/

/-- The telemetry merge of the `onTelemetry` handler in `App.tsx`: each field
present (defined) in the message overwrites the snapshot field; absent fields
are kept; `theta`/`th`, `velocity`/`v`, `steering`/`delta`, `throttle`/`u`
are aliased with the full spelling preferred; `lastUpdate` is stamped with
the current time. -/
def mergeTelemetry (t : TelemetryData) (m : TelemetryMessage) (now : Nat) : TelemetryData :=
  { x := m.x.getD t.x
    y := m.y.getD t.y
    theta := (jsCoalesce m.theta m.th).getD t.theta
    velocity := (jsCoalesce m.velocity m.v).getD t.velocity
    battery := m.battery.getD t.battery
    steering := (jsCoalesce m.steering m.delta).getD t.steering
    throttle := (jsCoalesce m.throttle m.u).getD t.throttle
    state := jsCoalesce m.state t.state
    gps_valid := jsCoalesce m.gps_valid t.gps_valid
    v2v_active := jsCoalesce m.v2v_active t.v2v_active
    v2v_peers := jsCoalesce m.v2v_peers t.v2v_peers
    v2v_protocol := jsCoalesce m.v2v_protocol t.v2v_protocol
    platoon_enabled := jsCoalesce m.platoon_enabled t.platoon_enabled
    platoon_is_leader := jsCoalesce m.platoon_is_leader t.platoon_is_leader
    platoon_position := jsCoalesce m.platoon_position t.platoon_position
    platoon_leader_id := jsCoalesce m.platoon_leader_id t.platoon_leader_id
    local_observer_type := jsCoalesce m.local_observer_type t.local_observer_type
    fleet_observer_type := jsCoalesce m.fleet_observer_type t.fleet_observer_type
    longitudinal_ctrl_type := jsCoalesce m.longitudinal_ctrl_type t.longitudinal_ctrl_type
    lateral_ctrl_type := jsCoalesce m.lateral_ctrl_type t.lateral_ctrl_type
    perception_active := jsCoalesce m.perception_active t.perception_active
    scopes_active := jsCoalesce m.scopes_active t.scopes_active
    lastUpdate := now }

/-- The `onTelemetry` subscriber in `App.tsx`: merge into the vehicle whose id
matches `msg.vehicle_id`, leaving all other vehicles untouched. -/
def onTelemetry (vs : List Vehicle) (m : TelemetryMessage) (now : Nat) : List Vehicle :=
  vs.map fun veh =>
    if veh.id = m.vehicle_id then { veh with telemetry := mergeTelemetry veh.telemetry m now }
    else veh

/-- The default snapshot given to a newly created vehicle in the
`onVehicleStatus` handler. -/
def freshTelemetry (now : Nat) : TelemetryData :=
  { x := 0
    y := 0
    theta := 0
    velocity := 0
    battery := 100
    steering := 0
    throttle := 0
    lastUpdate := now }

/-- The new `Vehicle` built by `onVehicleStatus` for a previously-unseen id. -/
def mkVehicleFromStatus (m : VehicleStatusMessage) (now : Nat) : Vehicle :=
  { id := m.vehicle_id
    name := "QCar " ++ jsReplaceFirst m.vehicle_id "qcar-" ""
    status := .IDLE
    config := { controllerId := "pid", estimatorId := "ekf", pathId := "default" }
    targetSpeed := 0
    telemetry := freshTelemetry now }

/-- The `onVehicleStatus` subscriber in `App.tsx`: a connect-type message
updates the first matching vehicle to IDLE or appends a fresh vehicle; a
disconnect-type message flips the first matching vehicle to DISCONNECTED and
is a no-op for unknown ids. -/
def onVehicleStatus (vs : List Vehicle) (m : VehicleStatusMessage) (now : Nat) : List Vehicle :=
  let existingIndex := jsFindIndex (fun veh => veh.id == m.vehicle_id) vs
  match m.status with
  | .connected =>
    match existingIndex with
    | some i => jsMapIdx (fun idx veh => if idx = i then { veh with status := .IDLE } else veh) vs
    | none => vs ++ [mkVehicleFromStatus m now]
  | .disconnected =>
    match existingIndex with
    | some i =>
      jsMapIdx (fun idx veh => if idx = i then { veh with status := .DISCONNECTED } else veh) vs
    | none => vs

/-! ### Fallback physics and the recurring tick (`constants.ts`,
`mockVehicleService.ts`, the mock-physics interval in `App.tsx`) -/

/-- `MAX_VELOCITY` constant (m/s). -/
def MAX_VELOCITY : ℝ := 2.0

/-- `MAP_WIDTH_METERS` constant. -/
def MAP_WIDTH_METERS : ℝ := 10

/-- `MAP_HEIGHT_METERS` constant. -/
def MAP_HEIGHT_METERS : ℝ := 10

/-- `REFRESH_RATE_MS` constant (10 Hz tick). -/
def REFRESH_RATE_MS : ℝ := 100

/-- `updateVehiclePhysics` from `mockVehicleService.ts`: a per-tick kinematic
integrator applied to ACTIVE and EMERGENCY_STOP vehicles; `Date.now()` is
the explicit `now` argument. -/
noncomputable def updateVehiclePhysics (vehicle : Vehicle) (dtSeconds : ℝ) (now : Nat) : Vehicle :=
  if vehicle.status ≠ .ACTIVE ∧ vehicle.status ≠ .EMERGENCY_STOP then vehicle
  else
    let t := vehicle.telemetry
    let targetV : ℝ := if vehicle.status = .EMERGENCY_STOP then 0 else vehicle.targetSpeed
    let accel : ℝ := 1.0
    let vel1 : ℝ :=
      if t.velocity < targetV then min (t.velocity + accel * dtSeconds) targetV
      else max (t.velocity - accel * dtSeconds) targetV
    let theta1 : ℝ := if vel1 > 0.1 then t.theta + 0.2 * dtSeconds else t.theta
    let x1 : ℝ := t.x + vel1 * Real.cos theta1 * dtSeconds
    let y1 : ℝ := t.y + vel1 * Real.sin theta1 * dtSeconds
    let theta2 : ℝ := if x1 < 0 ∨ x1 > MAP_WIDTH_METERS then Real.pi - theta1 else theta1
    let x2 : ℝ := if x1 < 0 ∨ x1 > MAP_WIDTH_METERS then max 0 (min x1 MAP_WIDTH_METERS) else x1
    let theta3 : ℝ := if y1 < 0 ∨ y1 > MAP_HEIGHT_METERS then -theta2 else theta2
    let y2 : ℝ := if y1 < 0 ∨ y1 > MAP_HEIGHT_METERS then max 0 (min y1 MAP_HEIGHT_METERS) else y1
    let battery1 : ℝ :=
      if vehicle.status = .ACTIVE then max 0 (t.battery - 0.05 * dtSeconds) else t.battery
    { vehicle with
      telemetry :=
        { t with
          velocity := vel1
          theta := theta3
          x := x2
          y := y2
          battery := battery1
          lastUpdate := now } }

/-- One iteration of the mock-physics interval in `App.tsx`, per vehicle:
with the global e-stop engaged, a vehicle not already in EMERGENCY_STOP is
forced there with target speed 0; otherwise the fallback physics runs while
the bridge is not connected. -/
noncomputable def tickVehicle (globalEStop : Bool) (bridgeStatus : ConnectionStatus) (now : Nat)
    (veh : Vehicle) : Vehicle :=
  if globalEStop = true ∧ veh.status ≠ .EMERGENCY_STOP then
    { veh with status := .EMERGENCY_STOP, targetSpeed := 0 }
  else if bridgeStatus ≠ .connected then updateVehiclePhysics veh (REFRESH_RATE_MS / 1000) now
  else veh

/-- The whole-fleet map performed by the interval callback. -/
noncomputable def tickFleet (globalEStop : Bool) (bridgeStatus : ConnectionStatus) (now : Nat)
    (vs : List Vehicle) : List Vehicle :=
  vs.map (tickVehicle globalEStop bridgeStatus now)

/-! ### WebSocket bridge client (`websocketBridgeService.ts`)

The client is modelled as an explicit state machine.  `this.socket` is an
optional ready-state; `reconnectTimer`/`heartbeatTimer` handles are booleans
(pending or not).  Because `disconnect()` closes the socket without detaching
its `onclose` handler, the discarded socket still delivers one close event to
the service later; `zombieSocket` records that such an event is pending.
Side effects on the environment (socket creation, closes, frame sends,
status-observer notifications) are collected as a list of actions. -/

/-- JSON scalar values appearing in outbound command objects. -/
inductive JValue where
  | jstr (s : String)
  | jnum (x : ℝ)
  | jbool (b : Bool)

/-- A flat JSON object, in key order. -/
def JObject : Type := List (String × JValue)

/-- JS object spread `{ ...base, ...extra }`: keys of `base` keep their
position (with `extra`'s value if duplicated); new keys of `extra` are
appended in order. -/
def jsSpread (base extra : JObject) : JObject :=
  base.map (fun kv =>
    match extra.find? (fun kv2 => kv2.1 == kv.1) with
    | some kv2 => (kv.1, kv2.2)
    | none => kv) ++
  extra.filter (fun kv2 => !(base.any (fun kv => kv.1 == kv2.1)))

/-- Externally visible effects of the bridge service. -/
inductive BridgeAction where
  | wsCreate
  | wsClose
  | wsSend (payload : JObject)
  | statusNotify (s : ConnectionStatus)

/-- Ready states of the underlying `WebSocket` object that the service ever
observes (`CONNECTING`, `OPEN`, and the closed state after a close event). -/
inductive ReadyState where
  | CONNECTING
  | OPEN
  | CLOSED
deriving DecidableEq

/-- The bridge configuration constants `BRIDGE_CONFIG`. -/
structure BridgeConfig where
  url : String
  reconnectInterval : Nat
  maxReconnectAttempts : Nat
  heartbeatInterval : Nat

/-- `BRIDGE_CONFIG` values. -/
def BRIDGE_CONFIG : BridgeConfig :=
  { url := "ws://localhost:8080"
    reconnectInterval := 3000
    maxReconnectAttempts := 10
    heartbeatInterval := 5000 }

/-- Mutable fields of the `WebSocketBridgeService` singleton, plus the
`zombieSocket` flag tracking a pending close event of a socket discarded by
`disconnect()`. -/
structure BridgeState where
  socket : Option ReadyState
  connectionStatus : ConnectionStatus
  reconnectAttempts : Nat
  reconnectTimer : Bool
  heartbeatTimer : Bool
  zombieSocket : Bool
deriving DecidableEq

/-- Initial state of the service singleton. -/
def initState : BridgeState :=
  { socket := none
    connectionStatus := .disconnected
    reconnectAttempts := 0
    reconnectTimer := false
    heartbeatTimer := false
    zombieSocket := false }

/-- `isConnected()`: `this.socket?.readyState === WebSocket.OPEN`. -/
def isConnected (s : BridgeState) : Bool :=
  s.socket = some .OPEN

/-- `setConnectionStatus`: assigns and notifies observers only when the
status actually changes. -/
def setConnectionStatus (s : BridgeState) (st : ConnectionStatus) :
    BridgeState × List BridgeAction :=
  if s.connectionStatus ≠ st then ({ s with connectionStatus := st }, [.statusNotify st])
  else (s, [])

/-- `cleanup()`: stop the heartbeat and clear any pending reconnect timer. -/
def cleanup (s : BridgeState) : BridgeState :=
  { s with heartbeatTimer := false, reconnectTimer := false }

/-- `scheduleReconnect()`: bounded by `maxReconnectAttempts`, at most one
pending timer. -/
def scheduleReconnect (s : BridgeState) : BridgeState :=
  if s.reconnectAttempts ≥ BRIDGE_CONFIG.maxReconnectAttempts then s
  else if s.reconnectTimer then s
  else { s with reconnectAttempts := s.reconnectAttempts + 1, reconnectTimer := true }

/-- `connect()`: idempotent while a socket is open or connecting; otherwise
transitions to `connecting` and opens a fresh socket. -/
def connectOp (s : BridgeState) : BridgeState × List BridgeAction :=
  if s.socket = some .OPEN then (s, [])
  else if s.socket = some .CONNECTING then (s, [])
  else
    let (s1, a1) := setConnectionStatus s .connecting
    ({ s1 with socket := some .CONNECTING }, a1 ++ [.wsCreate])

/-- `disconnect()`: cleanup, close the socket (whose close event, if the
socket was not already closed, will still reach the service's `onclose`
handler later), drop the reference, and report `disconnected`. -/
def disconnectOp (s : BridgeState) : BridgeState × List BridgeAction :=
  let s1 := cleanup s
  match s1.socket with
  | some rs =>
    let s2 := { s1 with socket := none,
                        zombieSocket := s1.zombieSocket || (rs ≠ .CLOSED : Bool) }
    let (s3, a3) := setConnectionStatus s2 .disconnected
    (s3, [.wsClose] ++ a3)
  | none =>
    let (s3, a3) := setConnectionStatus s1 .disconnected
    (s3, a3)

/-- Body of the `socket.onclose` handler. -/
def oncloseBody (s : BridgeState) : BridgeState × List BridgeAction :=
  let s1 := cleanup s
  let (s2, a2) := setConnectionStatus s1 .disconnected
  (scheduleReconnect s2, a2)

/-- Events driving the bridge state machine: the two public operations, the
socket callbacks, and timer expirations. -/
inductive BridgeEvent where
  | connectCall
  | disconnectCall
  | socketOpen
  | socketClose
  | zombieClose
  | socketError
  | reconnectFire
  | heartbeatFire
deriving DecidableEq

/-- One transition of the bridge client.  Socket events fire only when a
matching socket exists; an event with no matching socket or timer is a
no-op. -/
def bridgeStep (s : BridgeState) (e : BridgeEvent) : BridgeState × List BridgeAction :=
  match e with
  | .connectCall => connectOp s
  | .disconnectCall => disconnectOp s
  | .socketOpen =>
    match s.socket with
    | some .CONNECTING =>
      let s1 := { s with socket := some .OPEN, reconnectAttempts := 0 }
      let (s2, a2) := setConnectionStatus s1 .connected
      ({ s2 with heartbeatTimer := true }, a2)
    | _ => (s, [])
  | .socketClose =>
    match s.socket with
    | some .CONNECTING => oncloseBody { s with socket := some .CLOSED }
    | some .OPEN => oncloseBody { s with socket := some .CLOSED }
    | _ => (s, [])
  | .zombieClose =>
    if s.zombieSocket then oncloseBody { s with zombieSocket := false }
    else (s, [])
  | .socketError =>
    match s.socket with
    | some _ => setConnectionStatus s .error
    | none => (s, [])
  | .reconnectFire =>
    if s.reconnectTimer then connectOp { s with reconnectTimer := false }
    else (s, [])
  | .heartbeatFire =>
    if s.heartbeatTimer && isConnected s then (s, [.wsSend [("type", .jstr "ping")]])
    else (s, [])

/-- Run the state machine over an event sequence, accumulating actions. -/
def bridgeRun (s : BridgeState) : List BridgeEvent → BridgeState × List BridgeAction
  | [] => (s, [])
  | e :: es =>
    let (s1, a1) := bridgeStep s e
    let (s2, a2) := bridgeRun s1 es
    (s2, a1 ++ a2)

/-! ### Outbound command surface (`websocketBridgeService.ts`) -/

/-- `sendRawCommand`: refuse (returning `false`, writing nothing) unless the
socket is open; otherwise serialize one frame. -/
def sendRawCommand (s : BridgeState) (command : JObject) : Bool × List BridgeAction :=
  if !(isConnected s) then (false, [])
  else (true, [.wsSend command])

/-- `sendCommand`: build the flat record `{ type: action, target, ...payload }`
and transmit it. -/
def sendCommand (s : BridgeState) (action target : String) (payload : JObject) :
    Bool × List BridgeAction :=
  sendRawCommand s (jsSpread [("type", .jstr action), ("target", .jstr target)] payload)

/-- `setVelocity`. -/
def setVelocity (s : BridgeState) (velocity : ℝ) (target : String) : Bool × List BridgeAction :=
  sendCommand s "set_velocity" target [("type", .jstr "set_velocity"), ("v_ref", .jnum velocity)]

/-- `sendManualControl`. -/
def sendManualControl (s : BridgeState) (throttle steering : ℝ) (target : String) :
    Bool × List BridgeAction :=
  sendCommand s "manual_control" target
    [("throttle", .jnum throttle), ("steering", .jnum steering)]

/-- `enableManualMode`. -/
def enableManualMode (s : BridgeState) (target controlType : String) : Bool × List BridgeAction :=
  sendCommand s "enable_manual_mode" target [("control_type", .jstr controlType)]

/-- `disableManualMode`. -/
def disableManualMode (s : BridgeState) (target : String) : Bool × List BridgeAction :=
  sendCommand s "disable_manual_mode" target []

/-- `startMission`. -/
def startMission (s : BridgeState) (target : String) : Bool × List BridgeAction :=
  sendCommand s "start" target []

/-- `stopMission`. -/
def stopMission (s : BridgeState) (target : String) : Bool × List BridgeAction :=
  sendCommand s "stop" target []

/-- `emergencyStop`. -/
def emergencyStop (s : BridgeState) (target : String) : Bool × List BridgeAction :=
  sendCommand s "emergency_stop" target []

/-- `setPerception`. -/
def setPerception (s : BridgeState) (enabled : Bool) (target : String) :
    Bool × List BridgeAction :=
  sendCommand s (if enabled then "activate_perception" else "disable_perception") target []

/-- `enablePlatoonLeader`. -/
def enablePlatoonLeader (s : BridgeState) (target : String) : Bool × List BridgeAction :=
  sendCommand s "enable_platoon_leader" target [("role", .jstr "leader")]

/-- `enablePlatoonFollower`. -/
def enablePlatoonFollower (s : BridgeState) (target : String) (leaderId gap : ℝ) :
    Bool × List BridgeAction :=
  sendCommand s "enable_platoon_follower" target
    [("role", .jstr "follower"), ("leader_id", .jnum leaderId),
     ("following_distance", .jnum gap)]

/-- `startPlatoon`. -/
def startPlatoon (s : BridgeState) (target : String) (leaderId : ℝ) : Bool × List BridgeAction :=
  sendCommand s "start_platoon" target [("leader_id", .jnum leaderId)]

/-- `requestStatus`: checks connectivity itself and sends a bare
`{ type: 'get_status' }` frame. -/
def requestStatus (s : BridgeState) : Bool × List BridgeAction :=
  if !(isConnected s) then (false, [])
  else (true, [.wsSend [("type", .jstr "get_status")]])

/-- `setController`. -/
def setController (s : BridgeState) (category controllerType target : String) :
    Bool × List BridgeAction :=
  sendCommand s "set_controller" target
    [("category", .jstr category), ("controller_type", .jstr controllerType)]

/-- `setLocalObserver`. -/
def setLocalObserver (s : BridgeState) (observerType target : String) :
    Bool × List BridgeAction :=
  sendCommand s "set_local_observer" target [("observer_type", .jstr observerType)]

/-- `setFleetObserver`. -/
def setFleetObserver (s : BridgeState) (observerType target : String) :
    Bool × List BridgeAction :=
  sendCommand s "set_fleet_observer" target [("observer_type", .jstr observerType)]

/-! ### Helper lemmas -/

theorem jsFindIndex_eq_none {α : Type} (p : α → Bool) (l : List α)
    (h : ∀ a ∈ l, p a = false) : jsFindIndex p l = none := by
  induction l with
  | nil => rfl
  | cons a as ih =>
    simp [jsFindIndex, h a (by simp), ih (fun b hb => h b (by simp [hb]))]

theorem jsFindIndex_append_singleton {α : Type} (p : α → Bool) (l : List α) (x : α)
    (h : ∀ a ∈ l, p a = false) (hx : p x = true) :
    jsFindIndex p (l ++ [x]) = some l.length := by
  induction l with
  | nil => simp [jsFindIndex, hx]
  | cons a as ih =>
    simp [jsFindIndex, h a (by simp), ih (fun b hb => h b (by simp [hb]))]

theorem jsMapIdx_eq_self {α : Type} (f : Nat → α → α) (l : List α)
    (h : ∀ i a, l[i]? = some a → f i a = a) : jsMapIdx f l = l := by
  induction l generalizing f with
  | nil => rfl
  | cons a as ih =>
    have h0 : f 0 a = a := h 0 a (by simp)
    have hs : ∀ i b, as[i]? = some b → f (i + 1) b = b := fun i b hb => h (i + 1) b (by simpa)
    simp [jsMapIdx, h0, ih _ hs]

theorem jsMapIdx_length {α : Type} (f : Nat → α → α) (l : List α) :
    (jsMapIdx f l).length = l.length := by
  induction l generalizing f with
  | nil => rfl
  | cons a as ih => simp [jsMapIdx, ih]

theorem jsMapIdx_getElem? {α : Type} (f : Nat → α → α) (l : List α) (j : Nat) :
    (jsMapIdx f l)[j]? = (l[j]?).map (f j) := by
  induction l generalizing f j with
  | nil => simp [jsMapIdx]
  | cons a as ih =>
    cases j with
    | zero => simp [jsMapIdx]
    | succ j => simpa [jsMapIdx] using ih (fun i x => f (i + 1) x) j

/-! ### Claim theorems -/

/-- C1: applying message M1 and then M2 to a fresh per-vehicle snapshot yields
a snapshot whose fields equal M1's applied values except where M2 defines the
field (definedness, not truthiness), in which case M2's value wins; every
field absent in M2 keeps the value from M1. -/
theorem C1_merge_never_regresses_unseen_fields
    (m1 m2 : TelemetryMessage) (t0 t1 t2 : Nat) (s1 s2 : TelemetryData)
    (_hs1 : s1 = mergeTelemetry (freshTelemetry t0) m1 t1)
    (hs2 : s2 = mergeTelemetry s1 m2 t2) :
    ((∀ a, m2.x = some a → s2.x = a) ∧ (m2.x = none → s2.x = s1.x)) ∧
    ((∀ a, m2.y = some a → s2.y = a) ∧ (m2.y = none → s2.y = s1.y)) ∧
    ((∀ a, jsCoalesce m2.theta m2.th = some a → s2.theta = a) ∧
      (m2.theta = none → m2.th = none → s2.theta = s1.theta)) ∧
    ((∀ a, jsCoalesce m2.velocity m2.v = some a → s2.velocity = a) ∧
      (m2.velocity = none → m2.v = none → s2.velocity = s1.velocity)) ∧
    ((∀ a, m2.battery = some a → s2.battery = a) ∧
      (m2.battery = none → s2.battery = s1.battery)) ∧
    ((∀ a, jsCoalesce m2.steering m2.delta = some a → s2.steering = a) ∧
      (m2.steering = none → m2.delta = none → s2.steering = s1.steering)) ∧
    ((∀ a, jsCoalesce m2.throttle m2.u = some a → s2.throttle = a) ∧
      (m2.throttle = none → m2.u = none → s2.throttle = s1.throttle)) ∧
    ((∀ a, m2.state = some a → s2.state = some a) ∧
      (m2.state = none → s2.state = s1.state)) ∧
    ((∀ a, m2.gps_valid = some a → s2.gps_valid = some a) ∧
      (m2.gps_valid = none → s2.gps_valid = s1.gps_valid)) ∧
    ((∀ a, m2.v2v_active = some a → s2.v2v_active = some a) ∧
      (m2.v2v_active = none → s2.v2v_active = s1.v2v_active)) ∧
    ((∀ a, m2.v2v_peers = some a → s2.v2v_peers = some a) ∧
      (m2.v2v_peers = none → s2.v2v_peers = s1.v2v_peers)) ∧
    ((∀ a, m2.v2v_protocol = some a → s2.v2v_protocol = some a) ∧
      (m2.v2v_protocol = none → s2.v2v_protocol = s1.v2v_protocol)) ∧
    ((∀ a, m2.platoon_enabled = some a → s2.platoon_enabled = some a) ∧
      (m2.platoon_enabled = none → s2.platoon_enabled = s1.platoon_enabled)) ∧
    ((∀ a, m2.platoon_is_leader = some a → s2.platoon_is_leader = some a) ∧
      (m2.platoon_is_leader = none → s2.platoon_is_leader = s1.platoon_is_leader)) ∧
    ((∀ a, m2.platoon_position = some a → s2.platoon_position = some a) ∧
      (m2.platoon_position = none → s2.platoon_position = s1.platoon_position)) ∧
    ((∀ a, m2.platoon_leader_id = some a → s2.platoon_leader_id = some a) ∧
      (m2.platoon_leader_id = none → s2.platoon_leader_id = s1.platoon_leader_id)) ∧
    ((∀ a, m2.local_observer_type = some a → s2.local_observer_type = some a) ∧
      (m2.local_observer_type = none → s2.local_observer_type = s1.local_observer_type)) ∧
    ((∀ a, m2.fleet_observer_type = some a → s2.fleet_observer_type = some a) ∧
      (m2.fleet_observer_type = none → s2.fleet_observer_type = s1.fleet_observer_type)) ∧
    ((∀ a, m2.longitudinal_ctrl_type = some a → s2.longitudinal_ctrl_type = some a) ∧
      (m2.longitudinal_ctrl_type = none →
        s2.longitudinal_ctrl_type = s1.longitudinal_ctrl_type)) ∧
    ((∀ a, m2.lateral_ctrl_type = some a → s2.lateral_ctrl_type = some a) ∧
      (m2.lateral_ctrl_type = none → s2.lateral_ctrl_type = s1.lateral_ctrl_type)) ∧
    ((∀ a, m2.perception_active = some a → s2.perception_active = some a) ∧
      (m2.perception_active = none → s2.perception_active = s1.perception_active)) ∧
    ((∀ a, m2.scopes_active = some a → s2.scopes_active = some a) ∧
      (m2.scopes_active = none → s2.scopes_active = s1.scopes_active)) ∧
    s2.lastUpdate = t2 := by
  subst hs2
  clear _hs1
  and_intros <;> intros <;> simp_all [mergeTelemetry, jsCoalesce]

/-- Concrete instance of `C1_merge_never_regresses_unseen_fields`: M1 sets
`x := 1`, `velocity := 0` and `gps_valid := false`; M2 carries only `x := 2`;
after both merges `x` is 2 while `velocity` keeps M1's explicit zero and
`gps_valid` keeps M1's explicit `false`. -/
theorem C1_merge_never_regresses_unseen_fields_witness :
    (mergeTelemetry (mergeTelemetry (freshTelemetry 0)
        { vehicle_id := "qcar-0", x := some 1, velocity := some 0, gps_valid := some false } 1)
      { vehicle_id := "qcar-0", x := some 2 } 2).x = 2 ∧
    (mergeTelemetry (mergeTelemetry (freshTelemetry 0)
        { vehicle_id := "qcar-0", x := some 1, velocity := some 0, gps_valid := some false } 1)
      { vehicle_id := "qcar-0", x := some 2 } 2).velocity = 0 ∧
    (mergeTelemetry (mergeTelemetry (freshTelemetry 0)
        { vehicle_id := "qcar-0", x := some 1, velocity := some 0, gps_valid := some false } 1)
      { vehicle_id := "qcar-0", x := some 2 } 2).gps_valid = some false := by
  have h := C1_merge_never_regresses_unseen_fields
    { vehicle_id := "qcar-0", x := some 1, velocity := some 0, gps_valid := some false }
    { vehicle_id := "qcar-0", x := some 2 } 0 1 2 _ _ rfl rfl
  obtain ⟨hx, -, -, hvel, -, -, -, -, hgps, -⟩ := h
  refine ⟨hx.1 2 rfl, ?_, ?_⟩
  · rw [hvel.2 rfl rfl]; rfl
  · rw [hgps.2 rfl]; rfl

/-- C2: merging a message that carries the abbreviated spelling (`th`, `v`,
`u`, `delta`) produces a snapshot identical to merging the same message
carrying the full spelling with the same value, for each aliased field
independently; and when both spellings are present the full-name value is the
one stored. -/
theorem C2_field_name_aliasing_equivalence
    (t : TelemetryData) (m : TelemetryMessage) (now : Nat) (a b : ℝ) :
    (mergeTelemetry t { m with theta := none, th := some a } now =
        mergeTelemetry t { m with theta := some a, th := none } now ∧
      (mergeTelemetry t { m with theta := some a, th := some b } now).theta = a) ∧
    (mergeTelemetry t { m with velocity := none, v := some a } now =
        mergeTelemetry t { m with velocity := some a, v := none } now ∧
      (mergeTelemetry t { m with velocity := some a, v := some b } now).velocity = a) ∧
    (mergeTelemetry t { m with throttle := none, u := some a } now =
        mergeTelemetry t { m with throttle := some a, u := none } now ∧
      (mergeTelemetry t { m with throttle := some a, u := some b } now).throttle = a) ∧
    (mergeTelemetry t { m with steering := none, delta := some a } now =
        mergeTelemetry t { m with steering := some a, delta := none } now ∧
      (mergeTelemetry t { m with steering := some a, delta := some b } now).steering = a) :=
  ⟨⟨rfl, rfl⟩, ⟨rfl, rfl⟩, ⟨rfl, rfl⟩, ⟨rfl, rfl⟩⟩

/-- C9: a telemetry (or `v2v_status`) message whose `vehicle_id` matches no
known vehicle leaves the vehicle list completely unchanged. -/
theorem C9_unknown_id_telemetry_is_noop
    (vs : List Vehicle) (m : TelemetryMessage) (now : Nat)
    (h : ∀ veh ∈ vs, veh.id ≠ m.vehicle_id) :
    onTelemetry vs m now = vs := by
  induction vs with
  | nil => rfl
  | cons v0 rest ih =>
    have hv0 : ¬(v0.id = m.vehicle_id) := h v0 (by simp)
    have hrest := ih (fun veh hveh => h veh (by simp [hveh]))
    simp only [onTelemetry, List.map_cons, if_neg hv0] at hrest ⊢
    rw [hrest]

/-- Concrete instance of `C9_unknown_id_telemetry_is_noop`: a fleet holding
only `qcar-1` is unchanged by a telemetry message for `qcar-9`, even one
carrying an `x` value. -/
theorem C9_unknown_id_telemetry_is_noop_witness :
    onTelemetry
      [{ id := "qcar-1", name := "QCar 1", status := .IDLE,
         config := { controllerId := "pid", estimatorId := "ekf", pathId := "default" },
         targetSpeed := 0, telemetry := freshTelemetry 0 }]
      { vehicle_id := "qcar-9", x := some 5 } 7 =
    [{ id := "qcar-1", name := "QCar 1", status := .IDLE,
       config := { controllerId := "pid", estimatorId := "ekf", pathId := "default" },
       targetSpeed := 0, telemetry := freshTelemetry 0 }] := by
  apply C9_unknown_id_telemetry_is_noop
  intro veh hveh
  rcases List.mem_singleton.mp hveh with rfl
  decide

/-- C5: a connect-type `vehicle_status` message for a previously-unseen id
appends exactly one new vehicle whose default snapshot has origin pose, zero
kinematics and full battery, with status IDLE; processing the same message a
second time changes nothing further (one entry, updated in place). -/
theorem C5_vehicle_creation_idempotence
    (vs : List Vehicle) (m : VehicleStatusMessage) (now : Nat)
    (hconn : m.status = .connected)
    (hunknown : ∀ veh ∈ vs, veh.id ≠ m.vehicle_id) :
    onVehicleStatus vs m now = vs ++ [mkVehicleFromStatus m now] ∧
    (mkVehicleFromStatus m now).id = m.vehicle_id ∧
    (mkVehicleFromStatus m now).status = .IDLE ∧
    (mkVehicleFromStatus m now).telemetry.x = 0 ∧
    (mkVehicleFromStatus m now).telemetry.y = 0 ∧
    (mkVehicleFromStatus m now).telemetry.theta = 0 ∧
    (mkVehicleFromStatus m now).telemetry.velocity = 0 ∧
    (mkVehicleFromStatus m now).telemetry.throttle = 0 ∧
    (mkVehicleFromStatus m now).telemetry.steering = 0 ∧
    (mkVehicleFromStatus m now).telemetry.battery = 100 ∧
    ((onVehicleStatus vs m now).filter (fun veh => veh.id == m.vehicle_id)).length = 1 ∧
    onVehicleStatus (onVehicleStatus vs m now) m now = onVehicleStatus vs m now := by
  have hfalse : ∀ veh ∈ vs, (veh.id == m.vehicle_id) = false := by
    intro veh hveh
    simpa using hunknown veh hveh
  have hnone : jsFindIndex (fun veh => veh.id == m.vehicle_id) vs = none :=
    jsFindIndex_eq_none _ _ hfalse
  have happend : onVehicleStatus vs m now = vs ++ [mkVehicleFromStatus m now] := by
    simp [onVehicleStatus, hconn, hnone]
  have hidx : jsFindIndex (fun veh => veh.id == m.vehicle_id)
      (vs ++ [mkVehicleFromStatus m now]) = some vs.length :=
    jsFindIndex_append_singleton _ _ _ hfalse (by simp [mkVehicleFromStatus])
  refine ⟨happend, rfl, rfl, rfl, rfl, rfl, rfl, rfl, rfl, rfl, ?_, ?_⟩
  · rw [happend, List.filter_append]
    have h1 : vs.filter (fun veh => veh.id == m.vehicle_id) = [] :=
      List.filter_eq_nil_iff.mpr (by intro veh hveh; simp [hfalse veh hveh])
    simp [h1, mkVehicleFromStatus]
  · rw [happend]
    simp only [onVehicleStatus, hconn, hidx]
    apply jsMapIdx_eq_self
    intro i veh hi
    by_cases hlen : i = vs.length
    · subst hlen
      have : veh = mkVehicleFromStatus m now := by
        have h2 := hi
        simp [List.getElem?_append_right] at h2
        exact h2.symm
      subst this
      simp [mkVehicleFromStatus]
    · simp [hlen]

/-- Concrete instance of `C5_vehicle_creation_idempotence` starting from the
empty fleet. -/
theorem C5_vehicle_creation_idempotence_witness :
    onVehicleStatus [] { vehicle_id := "qcar-0", status := .connected } 5 =
      [mkVehicleFromStatus { vehicle_id := "qcar-0", status := .connected } 5] ∧
    onVehicleStatus
        (onVehicleStatus [] { vehicle_id := "qcar-0", status := .connected } 5)
        { vehicle_id := "qcar-0", status := .connected } 5 =
      onVehicleStatus [] { vehicle_id := "qcar-0", status := .connected } 5 := by
  have h := C5_vehicle_creation_idempotence []
    { vehicle_id := "qcar-0", status := .connected } 5 rfl (by simp)
  exact ⟨h.1, h.2.2.2.2.2.2.2.2.2.2.2⟩

/-- C6: a disconnect-type `vehicle_status` message for a known vehicle flips
only that vehicle's status to DISCONNECTED, leaving its whole telemetry
snapshot, name, config and target speed unchanged and leaving all other
vehicles untouched; a disconnect for an unknown id is a no-op. -/
theorem C6_disconnect_preserves_snapshot
    (vs : List Vehicle) (m : VehicleStatusMessage) (now : Nat)
    (hdis : m.status = .disconnected) :
    ((∀ veh ∈ vs, veh.id ≠ m.vehicle_id) → onVehicleStatus vs m now = vs) ∧
    (∀ i, jsFindIndex (fun veh => veh.id == m.vehicle_id) vs = some i →
      (onVehicleStatus vs m now).length = vs.length ∧
      ∀ j, (onVehicleStatus vs m now)[j]? =
        (vs[j]?).map
          (fun veh => if j = i then { veh with status := .DISCONNECTED } else veh)) := by
  constructor
  · intro hunknown
    have hnone : jsFindIndex (fun veh => veh.id == m.vehicle_id) vs = none :=
      jsFindIndex_eq_none _ _ (by intro veh hveh; simpa using hunknown veh hveh)
    simp [onVehicleStatus, hdis, hnone]
  · intro i hi
    simp only [onVehicleStatus, hdis, hi]
    exact ⟨jsMapIdx_length _ _, fun j => jsMapIdx_getElem? _ _ _⟩

/-- Concrete instance of `C6_disconnect_preserves_snapshot`: disconnecting a
vehicle with `x = 2.3` and `velocity = 0.8` keeps both values (the whole
snapshot) and only flips the status to DISCONNECTED. -/
theorem C6_disconnect_preserves_snapshot_witness :
    (onVehicleStatus
        [{ id := "qcar-0", name := "QCar 0", status := VehicleStatus.ACTIVE,
           config := { controllerId := "pid", estimatorId := "ekf", pathId := "default" },
           targetSpeed := 1,
           telemetry := { x := 2.3, y := 0, theta := 0, velocity := 0.8, battery := 90,
                          steering := 0, throttle := 0, lastUpdate := 3 } }]
        { vehicle_id := "qcar-0", status := .disconnected } 9)[0]? =
      some { id := "qcar-0", name := "QCar 0", status := VehicleStatus.DISCONNECTED,
             config := { controllerId := "pid", estimatorId := "ekf", pathId := "default" },
             targetSpeed := 1,
             telemetry := { x := 2.3, y := 0, theta := 0, velocity := 0.8, battery := 90,
                            steering := 0, throttle := 0, lastUpdate := 3 } } := by
  have h := (C6_disconnect_preserves_snapshot
    [{ id := "qcar-0", name := "QCar 0", status := VehicleStatus.ACTIVE,
       config := { controllerId := "pid", estimatorId := "ekf", pathId := "default" },
       targetSpeed := 1,
       telemetry := { x := 2.3, y := 0, theta := 0, velocity := 0.8, battery := 90,
                      steering := 0, throttle := 0, lastUpdate := 3 } }]
    { vehicle_id := "qcar-0", status := .disconnected } 9 rfl).2 0
    (by simp [jsFindIndex])
  rw [h.2 0]
  simp

/-- C3: the claim states that explicit `disconnect()` never leads to a
subsequent automatic `connect()`.  The code violates it: `disconnect()`
closes the socket without detaching its `onclose` handler, so the close event
triggered by the explicit close still runs the handler, which schedules a
reconnect (attempt 1) whose timer then performs an automatic connect
(`wsCreate`). -/
theorem C3_disconnect_schedules_reconnect_bug :
    (bridgeRun initState
        [.connectCall, .socketOpen, .disconnectCall]).1.reconnectTimer = false ∧
    (bridgeRun initState
        [.connectCall, .socketOpen, .disconnectCall]).1.zombieSocket = true ∧
    (bridgeRun initState
        [.connectCall, .socketOpen, .disconnectCall, .zombieClose]).1.reconnectTimer = true ∧
    (bridgeRun initState
        [.connectCall, .socketOpen, .disconnectCall, .zombieClose]).1.reconnectAttempts = 1 ∧
    (bridgeStep
        (bridgeRun initState
          [.connectCall, .socketOpen, .disconnectCall, .zombieClose]).1 .reconnectFire).2 =
      [.statusNotify .connecting, .wsCreate] :=
  ⟨by decide, by decide, by decide, by decide, rfl⟩

/-- The canonical run for the reconnect bound: a successful open followed by
ten close events, each reconnect timer firing (and failing) in between. -/
def tenFailureTrace : List BridgeEvent :=
  [.connectCall, .socketOpen] ++
    (List.replicate 10 [BridgeEvent.socketClose, .reconnectFire]).flatten

/-- C4: starting from a fresh successful connection, after exactly
`maxReconnectAttempts = 10` consecutive close events with no intervening open
the retry counter is exhausted; a further close schedules no timer, and from
any state with an exhausted counter and no pending timer, no event other than
an explicit operator action ever sets a reconnect timer again. -/
theorem C4_reconnect_bound (s : BridgeState) (e : BridgeEvent)
    (hmax : s.reconnectAttempts ≥ BRIDGE_CONFIG.maxReconnectAttempts)
    (htimer : s.reconnectTimer = false) :
    ((bridgeRun initState tenFailureTrace).1.reconnectAttempts =
        BRIDGE_CONFIG.maxReconnectAttempts ∧
      (bridgeRun initState tenFailureTrace).1.reconnectTimer = false ∧
      (bridgeStep (bridgeRun initState tenFailureTrace).1 .socketClose).1.reconnectTimer =
        false) ∧
    (bridgeStep s e).1.reconnectTimer = false := by
  refine ⟨⟨by decide, by decide, by decide⟩, ?_⟩
  have hsched : ∀ s1 : BridgeState,
      s1.reconnectAttempts ≥ BRIDGE_CONFIG.maxReconnectAttempts →
      (scheduleReconnect s1).reconnectTimer = s1.reconnectTimer := by
    intro s1 h1
    simp [scheduleReconnect, h1]
  cases e
  case connectCall =>
    simp only [bridgeStep, connectOp, setConnectionStatus]
    split_ifs <;> simp [htimer]
  case disconnectCall =>
    simp only [bridgeStep, disconnectOp, cleanup, setConnectionStatus]
    split_ifs <;> split <;> simp_all
  case socketOpen =>
    simp only [bridgeStep, setConnectionStatus]
    split <;> try simp [htimer]
    split_ifs <;> simp [htimer]
  case socketClose =>
    simp only [bridgeStep, oncloseBody, cleanup, setConnectionStatus]
    split <;> try exact htimer
    all_goals split_ifs <;> simp_all [hsched]
  case zombieClose =>
    simp only [bridgeStep, oncloseBody, cleanup, setConnectionStatus]
    split_ifs <;> simp_all [hsched]
  case socketError =>
    simp only [bridgeStep, setConnectionStatus]
    split <;> try exact htimer
    split_ifs <;> simp [htimer]
  case reconnectFire =>
    simp only [bridgeStep, connectOp, setConnectionStatus]
    split_ifs <;> simp_all
  case heartbeatFire =>
    simp only [bridgeStep]
    split_ifs <;> simp [htimer]

/-- Concrete instance of `C4_reconnect_bound`: in the state reached after the
ten failed cycles plus one more close, a further close event still schedules
nothing. -/
theorem C4_reconnect_bound_witness :
    (bridgeStep
        (bridgeStep (bridgeRun initState tenFailureTrace).1 .socketClose).1
        .socketClose).1.reconnectTimer = false :=
  (C4_reconnect_bound
    (bridgeStep (bridgeRun initState tenFailureTrace).1 .socketClose).1
    .socketClose (by decide) (by decide)).2

/-- C7: every typed command builder invoked while the client is not connected
returns `false` and performs no transport write. -/
theorem C7_commands_fail_while_disconnected (s : BridgeState)
    (h : isConnected s = false)
    (velocity throttle steering leaderId gap : ℝ)
    (target controlType category controllerType observerType : String) (enabled : Bool) :
    setVelocity s velocity target = (false, []) ∧
    startMission s target = (false, []) ∧
    stopMission s target = (false, []) ∧
    emergencyStop s target = (false, []) ∧
    sendManualControl s throttle steering target = (false, []) ∧
    enableManualMode s target controlType = (false, []) ∧
    disableManualMode s target = (false, []) ∧
    setPerception s enabled target = (false, []) ∧
    setController s category controllerType target = (false, []) ∧
    setLocalObserver s observerType target = (false, []) ∧
    setFleetObserver s observerType target = (false, []) ∧
    enablePlatoonLeader s target = (false, []) ∧
    enablePlatoonFollower s target leaderId gap = (false, []) ∧
    startPlatoon s target leaderId = (false, []) ∧
    requestStatus s = (false, []) := by
  and_intros <;>
    simp [setVelocity, startMission, stopMission, emergencyStop, sendManualControl,
      enableManualMode, disableManualMode, setPerception, setController, setLocalObserver,
      setFleetObserver, enablePlatoonLeader, enablePlatoonFollower, startPlatoon,
      requestStatus, sendCommand, sendRawCommand, h]

/-- Concrete instance of `C7_commands_fail_while_disconnected` in the initial
(disconnected) state. -/
theorem C7_commands_fail_while_disconnected_witness :
    setVelocity initState 1 "qcar-0" = (false, []) ∧
    startMission initState "qcar-0" = (false, []) ∧
    stopMission initState "qcar-0" = (false, []) ∧
    emergencyStop initState "all" = (false, []) ∧
    sendManualControl initState 0 0 "qcar-0" = (false, []) ∧
    enableManualMode initState "qcar-0" "keyboard" = (false, []) ∧
    disableManualMode initState "qcar-0" = (false, []) ∧
    setPerception initState true "qcar-0" = (false, []) ∧
    setController initState "longitudinal" "pid" "qcar-0" = (false, []) ∧
    setLocalObserver initState "ekf" "qcar-0" = (false, []) ∧
    setFleetObserver initState "consensus" "qcar-0" = (false, []) ∧
    enablePlatoonLeader initState "qcar-0" = (false, []) ∧
    enablePlatoonFollower initState "qcar-1" 0 1 = (false, []) ∧
    startPlatoon initState "qcar-1" 0 = (false, []) ∧
    requestStatus initState = (false, []) :=
  C7_commands_fail_while_disconnected initState (by decide) 1 0 0 0 1
    "qcar-0" "keyboard" "longitudinal" "pid" "ekf" true

/-- The status values delivered to a connection-status observer when
`setConnectionStatus` is applied over a list of requested statuses. -/
def notifyFold (s : BridgeState) : List ConnectionStatus → List ConnectionStatus
  | [] => []
  | st :: rest =>
    let (s1, acts) := setConnectionStatus s st
    (acts.filterMap fun a =>
      match a with
      | .statusNotify st1 => some st1
      | _ => none) ++ notifyFold s1 rest

theorem notifyFold_chain (upds : List ConnectionStatus) :
    ∀ s : BridgeState,
      List.Chain' (fun a b => a ≠ b) (s.connectionStatus :: notifyFold s upds) := by
  induction upds with
  | nil =>
    intro s
    simp [notifyFold]
  | cons st rest ih =>
    intro s
    by_cases hc : s.connectionStatus = st
    · simpa [notifyFold, setConnectionStatus, hc] using ih s
    · have h2 := ih { s with connectionStatus := st }
      simp only [notifyFold, setConnectionStatus, if_pos (by exact hc), List.filterMap,
        List.cons_append, List.nil_append]
      rw [List.chain'_cons]
      exact ⟨hc, by simpa using h2⟩

/-- C10: connection-status observers are notified only on actual transitions:
setting the status to the value it already holds produces no callback and no
state change, and over any sequence of internal status assignments the
delivered sequence (starting from the current status) never repeats a value
twice in a row. -/
theorem C10_status_observers_only_on_transitions
    (s : BridgeState) (st : ConnectionStatus) (upds : List ConnectionStatus)
    (h : s.connectionStatus = st) :
    setConnectionStatus s st = (s, []) ∧
    List.Chain' (fun a b => a ≠ b) (s.connectionStatus :: notifyFold s upds) :=
  ⟨by simp [setConnectionStatus, h], notifyFold_chain upds s⟩

/-- Concrete instance of `C10_status_observers_only_on_transitions`: writing
`disconnected` into the freshly initialized (already disconnected) client
notifies nobody and changes nothing. -/
theorem C10_status_observers_only_on_transitions_witness :
    setConnectionStatus initState .disconnected = (initState, []) ∧
    List.Chain' (fun a b => a ≠ b)
      (initState.connectionStatus ::
        notifyFold initState [.connecting, .connecting, .connected, .connected]) :=
  C10_status_observers_only_on_transitions initState .disconnected
    [.connecting, .connecting, .connected, .connected] rfl

/-- A vehicle already in EMERGENCY_STOP, at rest at the origin. -/
def estopVehicle : Vehicle :=
  { id := "qcar-0", name := "QCar 0", status := .EMERGENCY_STOP,
    config := { controllerId := "pid", estimatorId := "ekf", pathId := "default" },
    targetSpeed := 0, telemetry := freshTelemetry 0 }

/-- Counterexample to C8 as stated: with the global e-stop engaged but the
bridge not connected, one tick does NOT leave a vehicle already in
EMERGENCY_STOP as it is — the fallback physics still runs on it (the
EMERGENCY_STOP status passes `updateVehiclePhysics`'s early-return guard) and
rewrites its telemetry, at minimum stamping a new `lastUpdate`. -/
theorem C8_estopped_vehicle_changed_by_tick :
    tickVehicle true .disconnected 1 estopVehicle ≠ estopVehicle := by
  intro hEq
  have h1 : (tickVehicle true .disconnected 1 estopVehicle).telemetry.lastUpdate = 1 := rfl
  rw [hEq] at h1
  simp [estopVehicle, freshTelemetry] at h1

/-- C8 (amended): with the global e-stop flag engaged, every tick maps each
vehicle not already in EMERGENCY_STOP to EMERGENCY_STOP with target speed 0
(telemetry untouched on that tick); a vehicle already in EMERGENCY_STOP keeps
status EMERGENCY_STOP and its target speed, and is left entirely unchanged
when the bridge is connected (when it is not, the fallback physics still
updates its telemetry). -/
theorem C8_global_estop_convergence_amended
    (gE : Bool) (bs : ConnectionStatus) (now : Nat) (veh : Vehicle)
    (hgE : gE = true) :
    (veh.status ≠ .EMERGENCY_STOP →
      tickVehicle gE bs now veh = { veh with status := .EMERGENCY_STOP, targetSpeed := 0 }) ∧
    (veh.status = .EMERGENCY_STOP →
      (tickVehicle gE bs now veh).status = .EMERGENCY_STOP ∧
      (tickVehicle gE bs now veh).targetSpeed = veh.targetSpeed ∧
      (bs = .connected → tickVehicle gE bs now veh = veh)) := by
  subst hgE
  constructor
  · intro hne
    simp [tickVehicle, hne]
  · intro he
    by_cases hbs : bs = ConnectionStatus.connected
    · subst hbs
      simp [tickVehicle, he]
    · refine ⟨?_, ?_, fun hc => absurd hc hbs⟩
      · simp [tickVehicle, he, hbs, updateVehiclePhysics]
      · simp [tickVehicle, he, hbs, updateVehiclePhysics]

/-- Concrete instance of `C8_global_estop_convergence_amended`: one engaged
tick forces an IDLE vehicle into EMERGENCY_STOP with target speed 0, and a
vehicle already in EMERGENCY_STOP is unchanged while the bridge is
connected. -/
theorem C8_global_estop_convergence_amended_witness :
    tickVehicle true .connected 3 { estopVehicle with status := .IDLE, targetSpeed := 2 } =
      { estopVehicle with status := .EMERGENCY_STOP, targetSpeed := 0 } ∧
    tickVehicle true .connected 3 estopVehicle = estopVehicle := by
  constructor
  · exact (C8_global_estop_convergence_amended true .connected 3
      { estopVehicle with status := .IDLE, targetSpeed := 2 } rfl).1 (by decide)
  · exact ((C8_global_estop_convergence_amended true .connected 3 estopVehicle rfl).2
      rfl).2.2 rfl
